import Mathlib

/-!
Verification of the browser effect-adapter kernel (`src/Elm/Kernel/Browser.js`).

The development shallowly embeds the parts of the kernel the claims are
about: the render coalescer (`_Browser_makeAnimator`, its frame callback
`updateIfNeeded` and its notify closure), global event subscriptions
(`_Browser_on`, `_Browser_fakeNode`), event decoding
(`_Browser_decodeEvent`), navigation (`_Browser_load`, `_Browser_reload`),
DOM queries (`_Browser_withNode`) and scrolling (`_Browser_setPositiveScroll`,
`_Browser_setNegativeScroll`), and the document-mode draw loop
(`_Browser_document`).

The host event loop is single threaded, so stateful kernel code is embedded
as pure state-passing functions, and host side effects (draw calls,
animation-frame requests, listener registrations, title writes, reloads)
are recorded explicitly in the state so that theorems can speak about them.
-/

/-! ## Render coalescer (`_Browser_makeAnimator`)

The JS keeps three pieces of mutable state per animator: the scheduling
state (`__4_NO_REQUEST` / `__4_PENDING_REQUEST` / `__4_EXTRA_REQUEST`), the
latest model, and (implicitly, in the host) the set of animation-frame
callbacks requested via `_Browser_requestAnimationFrame` but not yet fired.
The embedding carries all three, plus a log of `draw` calls (most recent
first) so that theorems can state which model each draw used. -/

inductive AnimatorState where
  | noRequest
  | pendingRequest
  | extraRequest
deriving DecidableEq, Repr

structure Animator (M : Type) where
  /-- the `state` variable of `_Browser_makeAnimator` -/
  state : AnimatorState
  /-- the `model` variable: latest stored state, overwritten on every notify -/
  model : M
  /-- animation-frame callbacks requested via `_Browser_requestAnimationFrame`
  by this animator and not yet fired -/
  outstanding : Nat
  /-- log of `draw` calls, most recent first, each with the model it drew -/
  draws : List M
deriving DecidableEq, Repr

/-- `_Browser_makeAnimator(model, draw)`: draws once unconditionally, then
initializes `state` to `NO_REQUEST`. -/
def _Browser_makeAnimator (model : M) : Animator M :=
  { state := .noRequest, model := model, outstanding := 0, draws := [model] }

/-- The frame callback `updateIfNeeded` of `_Browser_makeAnimator`:

    state = state === __4_EXTRA_REQUEST
      ? __4_NO_REQUEST
      : ( _Browser_requestAnimationFrame(updateIfNeeded), draw(model),
          __4_EXTRA_REQUEST );
-/
def updateIfNeeded (a : Animator M) : Animator M :=
  if a.state = .extraRequest then
    { a with state := .noRequest }
  else
    { a with outstanding := a.outstanding + 1,
             draws := a.model :: a.draws,
             state := .extraRequest }

/-- The closure returned by `_Browser_makeAnimator`:

    function(nextModel, isSync) {
      model = nextModel;
      isSync
        ? ( draw(model),
            state === __4_PENDING_REQUEST && (state = __4_EXTRA_REQUEST) )
        : ( state === __4_NO_REQUEST
              && _Browser_requestAnimationFrame(updateIfNeeded),
            state = __4_PENDING_REQUEST );
    }
-/
def _Browser_animator_notify (a : Animator M) (nextModel : M) (isSync : Bool) :
    Animator M :=
  let a1 := { a with model := nextModel }
  if isSync then
    { a1 with draws := a1.model :: a1.draws,
              state := if a1.state = .pendingRequest then .extraRequest
                       else a1.state }
  else
    { a1 with outstanding := if a1.state = .noRequest then a1.outstanding + 1
                             else a1.outstanding,
              state := .pendingRequest }

/-- The host fires one of the outstanding animation-frame callbacks, which
runs `updateIfNeeded`.  The host can only fire a callback that was actually
requested, so this is enabled only when one is outstanding. -/
def frameFire (a : Animator M) : Animator M :=
  if a.outstanding = 0 then a
  else updateIfNeeded { a with outstanding := a.outstanding - 1 }

/-- One external trigger of a running animator: a notify call from the
application, or the host firing a scheduled animation-frame callback. -/
inductive AnimEvent (M : Type) where
  | notify (nextModel : M) (isSync : Bool)
  | frame
deriving DecidableEq, Repr

def animStep (a : Animator M) : AnimEvent M → Animator M
  | .notify m isSync => _Browser_animator_notify a m isSync
  | .frame => frameFire a

def animRun (a : Animator M) : List (AnimEvent M) → Animator M
  | [] => a
  | e :: es => animRun (animStep a e) es

example :
    (animRun (_Browser_makeAnimator 0) [.notify 1 false, .frame]).draws
      = [1, 0] := by decide

example :
    (animRun (_Browser_makeAnimator 0) [.notify 1 false, .frame]).state
      = .extraRequest := by decide

example :
    (animRun (_Browser_makeAnimator 0) [.notify 1 false, .frame, .frame]).state
      = .noRequest := by decide

/-! ## Global event subscriptions (`_Browser_on`, `_Browser_fakeNode`)

A host event target carries a list of registered listeners.  Per the DOM,
a listener registration is identified by (event name, handler, capture
flag); adding a duplicate is ignored, and removal removes the registration
with the same identity.  The `passive` flag is part of an add call's
options but not of a registration's identity. -/

structure Listener (H : Type) where
  eventName : String
  handler : H
  capture : Bool
deriving DecidableEq, Repr

/-- The third argument of `addEventListener` / `removeEventListener` in a
call: absent, a boolean capture flag, or an options object.  The options
object written by `_Browser_on` is `{ passive: passive }`, with no
`capture` member. -/
inductive ListenOptions where
  | absent
  | boolFlag (capture : Bool)
  | passiveObj (passive : Bool)
deriving DecidableEq, Repr

/-- The capture flag a call's third argument denotes (absent member and
absent argument default to `false`). -/
def effectiveCapture : ListenOptions → Bool
  | .absent => false
  | .boolFlag c => c
  | .passiveObj _ => false

/-- `addEventListener(eventName, handler, opts)` on a real DOM node. -/
def addEventListener [DecidableEq H] (ls : List (Listener H))
    (eventName : String) (handler : H) (opts : ListenOptions) :
    List (Listener H) :=
  let l : Listener H := ⟨eventName, handler, effectiveCapture opts⟩
  if l ∈ ls then ls else ls ++ [l]

/-- `removeEventListener(eventName, handler, opts)` on a real DOM node. -/
def removeEventListener [DecidableEq H] (ls : List (Listener H))
    (eventName : String) (handler : H) (opts : ListenOptions) :
    List (Listener H) :=
  ls.filter (fun l => l ≠ ⟨eventName, handler, effectiveCapture opts⟩)

/-- The behavior of an event target: how its add/remove calls act on its
listener list.  The real `document`/`window` use the DOM semantics; the
fake node ignores both calls. -/
structure EventTarget (H : Type) where
  add : List (Listener H) → String → H → ListenOptions → List (Listener H)
  remove : List (Listener H) → String → H → ListenOptions → List (Listener H)

def _Browser_domTarget [DecidableEq H] : EventTarget H :=
  { add := addEventListener, remove := removeEventListener }

/-- `_Browser_fakeNode = { addEventListener: function() {},
removeEventListener: function() {} }`: both calls do nothing. -/
def _Browser_fakeNode : EventTarget H :=
  { add := fun ls _ _ _ => ls, remove := fun ls _ _ _ => ls }

/-- `_Browser_doc = typeof document !== 'undefined' ? document
: _Browser_fakeNode`. -/
def _Browser_doc [DecidableEq H] (documentDefined : Bool) : EventTarget H :=
  if documentDefined then _Browser_domTarget else _Browser_fakeNode

/-- `_Browser_window = typeof window !== 'undefined' ? window
: _Browser_fakeNode`. -/
def _Browser_window [DecidableEq H] (windowDefined : Bool) : EventTarget H :=
  if windowDefined then _Browser_domTarget else _Browser_fakeNode

/-- The options value `_Browser_on` passes to `addEventListener`:
`__VirtualDom_passiveSupported && { passive: passive }`. -/
def _Browser_on_addOptions (passiveSupported passive : Bool) : ListenOptions :=
  if passiveSupported then .passiveObj passive else .boolFlag false

/-- A subscription produced by `_Browser_on(node, passive, eventName,
sendToSelf)`: the effect of starting it (the `addEventListener` call) and
of its teardown (`function() { node.removeEventListener(eventName,
handler); }`), both acting on the node's listener list.  Both close over
the same `node`, `eventName` and `handler`; the teardown passes no third
argument. -/
def _Browser_on (node : EventTarget H) (passiveSupported passive : Bool)
    (eventName : String) (handler : H) :
    (List (Listener H) → List (Listener H)) ×
    (List (Listener H) → List (Listener H)) :=
  ( fun ls => node.add ls eventName handler
      (_Browser_on_addOptions passiveSupported passive),
    fun ls => node.remove ls eventName handler .absent )

/-- The handlers a host event with the given name reaches: one message is
produced per registered listener for that name. -/
def dispatch (ls : List (Listener H)) (eventName : String) : List H :=
  (ls.filter (fun l => l.eventName = eventName)).map (fun l => l.handler)

/-! ## Event decoding (`_Browser_decodeEvent`)

In the kernel, `__Json_runHelp(decoder, event)` yields a result that, when
ok, carries the decoded pair: `result.a.a` is the message and `result.a.b`
the suppress-default flag.  A decoder is embedded as a function to
`Option (μ × Bool)` (`none` = decode failure). -/

/-- `_Browser_decodeEvent(decoder, event)`.  Returns the produced
`Maybe` value together with whether `event.preventDefault()` was invoked. -/
def _Browser_decodeEvent (decoder : E → Option (μ × Bool)) (event : E) :
    Option μ × Bool :=
  match decoder event with
  | some (msg, prevent) => (some msg, prevent)
  | none => (none, false)

/-! ## Navigation (`_Browser_reload`, `_Browser_load`)

The body of each deferred operation is embedded as the list of host
actions it performs, paired with whether it ever invokes its completion
callback.  For `_Browser_load`, whether the host throws on assigning
`window.location` is an input of the model (only some hosts throw on a
malformed URL). -/

inductive HostAction where
  /-- the attempted assignment `window.location = url` -/
  | assignLocation (url : String)
  /-- `__VirtualDom_doc.location.reload(skipCache)` -/
  | reload (skipCache : Bool)
deriving DecidableEq, Repr

/-- Executing the body of `_Browser_reload(skipCache)`: reloads, never
calls `callback`. -/
def _Browser_reload_run (skipCache : Bool) : List HostAction × Bool :=
  ([.reload skipCache], false)

/-- Executing the body of `_Browser_load(url)`: tries
`window.location = url`; if the host throws, catches and runs
`__VirtualDom_doc.location.reload(false)`.  Never calls `callback`. -/
def _Browser_load_run (url : String) (assignThrows : Bool) :
    List HostAction × Bool :=
  if assignThrows then ([.assignLocation url, .reload false], false)
  else ([.assignLocation url], false)

/-! ## DOM queries (`_Browser_withNode`) and scrolling

A DOM node is embedded by its numeric properties (`scrollLeft`,
`scrollTop`, `scrollLeftMax`, ... accessed by name in the kernel via
`node[scroll]`); the document is a partial map from element ids to nodes.
`__Scheduler_binding` wraps the body as a deferred operation; the body of
`_Browser_withNode` does nothing at bind time and defers the whole lookup
to an animation-frame callback, so the embedding of such an operation is a
function of the document as it stands at that frame tick, plus a flag
recording that the body runs inside `_Browser_requestAnimationFrame`. -/

def DomNode : Type := String → Int

inductive DomError where
  | notFound (id : String)
deriving DecidableEq, Repr

/-- A deferred DOM operation: `runsOnFrame` records whether its body is
wrapped in `_Browser_requestAnimationFrame` (so it executes on the next
animation-frame tick, not when the operation is bound), and `atFrame`
gives the resolution as a function of the document at execution time. -/
structure FrameDeferred (α : Type) where
  runsOnFrame : Bool
  atFrame : (String → Option DomNode) → Except DomError α

/-- `_Browser_withNode(id, doStuff)`: on the next animation frame, look up
`document.getElementById(id)`; succeed with `doStuff(node)` if a node was
found, otherwise fail with `__Dom_NotFound(id)`. -/
def _Browser_withNode (id : String) (doStuff : DomNode → α) :
    FrameDeferred α :=
  { runsOnFrame := true,
    atFrame := fun getElementById =>
      match getElementById id with
      | some node => .ok (doStuff node)
      | none => .error (.notFound id) }

/-- `node[prop] = v` on the embedded node. -/
def setProp (node : DomNode) (prop : String) (v : Int) : DomNode :=
  fun s => if s = prop then v else node s

/-- `_Browser_setPositiveScroll(scroll, id, offset)`:
`node[scroll] = offset`.  The JS mutates the node and returns `Tuple0`;
the embedding resolves with the updated node. -/
def _Browser_setPositiveScroll (scroll id : String) (offset : Int) :
    FrameDeferred DomNode :=
  _Browser_withNode id (fun node => setProp node scroll offset)

/-- `_Browser_setNegativeScroll(scroll, scrollMax, id, offset)`:
`node[scroll] = node[scrollMax] - offset`. -/
def _Browser_setNegativeScroll (scroll scrollMax id : String)
    (offset : Int) : FrameDeferred DomNode :=
  _Browser_withNode id (fun node =>
    setProp node scroll (node scrollMax - offset))

/-! ## Document mode (`_Browser_document`)

The draw function `_Browser_document` hands to `_Browser_makeAnimator`
renders the view, patches the body node, and then writes the document
title only when it changed:

    (title !== doc.__$title) && (__VirtualDom_doc.title = title = doc.__$title);

The renderer collaborators (`virtualize`/`diff`/`applyPatches`) are out of
scope and abstracted as one `patch` function; the embedding logs each body
patch and each host title write. -/

structure DocView (B : Type) where
  title : String
  body : B

structure DocState (B : Type) where
  /-- the `title` variable: last title written (initialized from the host) -/
  title : String
  /-- the current `bodyNode` -/
  bodyNode : B
  /-- log of assignments to `__VirtualDom_doc.title`, in order -/
  titleWrites : List String
  /-- number of body diff/patch passes performed -/
  bodyPatches : Nat

/-- The setup of `_Browser_document`: `title = __VirtualDom_doc.title;
bodyNode = __VirtualDom_doc.body;` before the animator is created. -/
def _Browser_document_init (hostTitle : String) (hostBody : B) :
    DocState B :=
  { title := hostTitle, bodyNode := hostBody,
    titleWrites := [], bodyPatches := 0 }

/-- One run of the draw closure of `_Browser_document` on a model. -/
def _Browser_document_draw (view : M → DocView B) (patch : B → B → B)
    (st : DocState B) (model : M) : DocState B :=
  let doc := view model
  let st1 := { st with bodyNode := patch st.bodyNode doc.body,
                       bodyPatches := st.bodyPatches + 1 }
  if st1.title ≠ doc.title then
    { st1 with title := doc.title,
               titleWrites := st1.titleWrites ++ [doc.title] }
  else st1

/-! ## Theorems: render coalescer -/

/-- C1, claim as stated, refuted.  Run the animator to a reachable
configuration whose state is `ExtraRequest` (async notify, then one frame
fire).  The claim predicts that the frame callback firing there draws with
the latest stored state, schedules another animation-frame callback, and
stays pending; the code instead performs no draw, schedules nothing, and
sets the state to `NoRequest`.  The claim also predicts that firing in a
non-`ExtraRequest` state (here `PendingRequest`) sets the state to
`NoRequest`; the code instead sets it to `ExtraRequest`. -/
theorem frameFire_extraRequest_counterexample :
    (frameFire (_Browser_animator_notify (_Browser_makeAnimator 0) 1
        false)).state = AnimatorState.extraRequest ∧
    ¬ ((frameFire (frameFire (_Browser_animator_notify
            (_Browser_makeAnimator 0) 1 false))).draws
          = 1 :: (frameFire (_Browser_animator_notify
            (_Browser_makeAnimator 0) 1 false)).draws ∧
        (frameFire (frameFire (_Browser_animator_notify
            (_Browser_makeAnimator 0) 1 false))).outstanding = 1 ∧
        (frameFire (frameFire (_Browser_animator_notify
            (_Browser_makeAnimator 0) 1 false))).state
          ≠ AnimatorState.noRequest) ∧
    (frameFire (frameFire (_Browser_animator_notify
        (_Browser_makeAnimator 0) 1 false))).draws
      = (frameFire (_Browser_animator_notify
        (_Browser_makeAnimator 0) 1 false)).draws ∧
    (frameFire (frameFire (_Browser_animator_notify
        (_Browser_makeAnimator 0) 1 false))).outstanding = 0 ∧
    (_Browser_animator_notify (_Browser_makeAnimator 0) 1 false).state
      = AnimatorState.pendingRequest ∧
    (frameFire (_Browser_animator_notify (_Browser_makeAnimator 0) 1
        false)).state ≠ AnimatorState.noRequest := by decide

/-- C1, amended.  When the frame callback (`updateIfNeeded`) fires with
the animator state NOT equal to `ExtraRequest`, it schedules another
animation-frame callback, draws with the latest stored state, and moves
the state to `ExtraRequest` (so one callback stays outstanding); when it
fires with the state equal to `ExtraRequest`, it neither draws nor
schedules and sets the state to `NoRequest`. -/
theorem frameFire_branches (a : Animator M) (h : a.outstanding = 1) :
    (a.state = AnimatorState.extraRequest →
      frameFire a
        = { a with state := AnimatorState.noRequest, outstanding := 0 }) ∧
    (a.state ≠ AnimatorState.extraRequest →
      frameFire a
        = { a with state := AnimatorState.extraRequest,
                   draws := a.model :: a.draws }) := by
  constructor <;> intro hs <;>
    simp [frameFire, updateIfNeeded, h, hs]

theorem frameFire_branches_witness :
    ((_Browser_animator_notify (_Browser_makeAnimator (0 : Nat)) 1
        false).state = AnimatorState.extraRequest →
      frameFire (_Browser_animator_notify (_Browser_makeAnimator 0) 1 false)
        = { _Browser_animator_notify (_Browser_makeAnimator 0) 1 false with
            state := AnimatorState.noRequest, outstanding := 0 }) ∧
    ((_Browser_animator_notify (_Browser_makeAnimator (0 : Nat)) 1
        false).state ≠ AnimatorState.extraRequest →
      frameFire (_Browser_animator_notify (_Browser_makeAnimator 0) 1 false)
        = { _Browser_animator_notify (_Browser_makeAnimator 0) 1 false with
            state := AnimatorState.extraRequest,
            draws := (_Browser_animator_notify (_Browser_makeAnimator 0) 1
                false).model
              :: (_Browser_animator_notify (_Browser_makeAnimator 0) 1
                false).draws }) :=
  frameFire_branches _ (by decide)

/-- C2, claim as stated, refuted.  In a reachable configuration whose
state is `ExtraRequest`, an asynchronous notify does update only the
stored model and schedules no callback — but it also changes the animator
state, setting it to `PendingRequest`. -/
theorem notify_async_extra_counterexample :
    (frameFire (_Browser_animator_notify (_Browser_makeAnimator 0) 1
        false)).state = AnimatorState.extraRequest ∧
    (_Browser_animator_notify
        (frameFire (_Browser_animator_notify (_Browser_makeAnimator 0) 1
          false)) 2 false).state
      ≠ (frameFire (_Browser_animator_notify (_Browser_makeAnimator 0) 1
          false)).state ∧
    (_Browser_animator_notify
        (frameFire (_Browser_animator_notify (_Browser_makeAnimator 0) 1
          false)) 2 false).state = AnimatorState.pendingRequest := by decide

/-- C2, amended.  An asynchronous notify on an animator in state
`PendingRequest` or `ExtraRequest` updates the stored latest state,
schedules no new animation-frame callback and performs no draw, and sets
the state to `PendingRequest` — unchanged when it was already
`PendingRequest`, a change when it was `ExtraRequest`. -/
theorem notify_async_pending_or_extra (a : Animator M) (m : M)
    (h : a.state = AnimatorState.pendingRequest
      ∨ a.state = AnimatorState.extraRequest) :
    _Browser_animator_notify a m false
      = { a with model := m, state := AnimatorState.pendingRequest } := by
  rcases h with h | h <;> simp [_Browser_animator_notify, h]

theorem notify_async_pending_or_extra_witness :
    _Browser_animator_notify
        (_Browser_animator_notify (_Browser_makeAnimator (0 : Nat)) 1 false)
        2 false
      = { _Browser_animator_notify (_Browser_makeAnimator 0) 1 false with
          model := 2, state := AnimatorState.pendingRequest } :=
  notify_async_pending_or_extra _ _ (Or.inl (by decide))

/-- The correspondence between the animator's scheduling state and the
number of outstanding animation-frame callbacks. -/
def animInv (a : Animator M) : Prop :=
  a.outstanding = if a.state = AnimatorState.noRequest then 0 else 1

theorem animInv_init (m : M) : animInv (_Browser_makeAnimator m) := by
  simp [animInv, _Browser_makeAnimator]

theorem animInv_step (a : Animator M) (e : AnimEvent M) (h : animInv a) :
    animInv (animStep a e) := by
  cases e with
  | notify m isSync =>
    rcases a with ⟨s, mo, o, d⟩
    cases isSync <;> cases s <;>
      simp_all [animInv, animStep, _Browser_animator_notify]
  | frame =>
    rcases a with ⟨s, mo, o, d⟩
    cases s <;> simp_all [animInv, animStep, frameFire, updateIfNeeded]

theorem animRun_inv (a : Animator M) (evs : List (AnimEvent M))
    (h : animInv a) : animInv (animRun a evs) := by
  induction evs generalizing a with
  | nil => exact h
  | cons e es ih => exact ih _ (animInv_step a e h)

/-- C3, confirmed.  Starting from `_Browser_makeAnimator`, after every
finite sequence of notify calls and frame-callback firings at most one
animation-frame callback requested by the animator is outstanding.  (The
sequence of events is arbitrary, so this holds at every point of every
run.) -/
theorem animator_at_most_one_outstanding (m : M)
    (evs : List (AnimEvent M)) :
    (animRun (_Browser_makeAnimator m) evs).outstanding ≤ 1 := by
  have h := animRun_inv (_Browser_makeAnimator m) evs (animInv_init m)
  unfold animInv at h
  rw [h]
  split <;> simp

/-! ## Theorems: event subscriptions -/

theorem filter_ne_append_singleton [DecidableEq H] (ls : List (Listener H))
    (c : Listener H) (hfresh : c ∉ ls) :
    (ls ++ [c]).filter (fun l => l ≠ c) = ls := by
  induction ls with
  | nil => simp
  | cons x xs ih =>
    simp only [List.mem_cons, not_or] at hfresh
    have hx : x ≠ c := fun he => hfresh.1 he.symm
    simp [List.filter_cons, hx, ih hfresh.2]
    exact fun a ha he => hfresh.2 (he ▸ ha)

/-- C4, confirmed.  A subscription of `_Browser_on(node, passive,
eventName, sendToSelf)` on the real `document`/`window` target adds
exactly one listener, identified by the same event name and handler and by
capture flag `false` (the add call's third argument,
`passiveSupported && { passive: passive }`, carries no capture member, and
the teardown's absent third argument also defaults to capture `false`, so
the two calls' listener configurations agree on the flag that identifies a
registration); the teardown — which closes over the same `node`,
`eventName` and `handler` by construction of `_Browser_on` — removes
exactly that listener, restoring the node's listener list. -/
theorem on_teardown_exact [DecidableEq H] (ls : List (Listener H))
    (ps p : Bool) (en : String) (h : H)
    (hfresh : (⟨en, h, false⟩ : Listener H) ∉ ls) :
    effectiveCapture (_Browser_on_addOptions ps p)
        = effectiveCapture ListenOptions.absent ∧
    (_Browser_on _Browser_domTarget ps p en h).1 ls
        = ls ++ [⟨en, h, false⟩] ∧
    (_Browser_on _Browser_domTarget ps p en h).2
        ((_Browser_on _Browser_domTarget ps p en h).1 ls) = ls := by
  have hcap : effectiveCapture (_Browser_on_addOptions ps p) = false := by
    cases ps <;> rfl
  have hadd : (_Browser_on _Browser_domTarget ps p en h).1 ls
      = ls ++ [⟨en, h, false⟩] := by
    show addEventListener ls en h (_Browser_on_addOptions ps p)
      = ls ++ [⟨en, h, false⟩]
    unfold addEventListener
    rw [hcap, if_neg hfresh]
  refine ⟨hcap, hadd, ?_⟩
  rw [hadd]
  show removeEventListener (ls ++ [⟨en, h, false⟩]) en h .absent = ls
  unfold removeEventListener
  exact filter_ne_append_singleton ls _ hfresh

theorem on_teardown_exact_witness :
    effectiveCapture (_Browser_on_addOptions true true)
        = effectiveCapture ListenOptions.absent ∧
    (_Browser_on _Browser_domTarget true true "resize" (7 : Nat)).1 []
        = [] ++ [⟨"resize", 7, false⟩] ∧
    (_Browser_on _Browser_domTarget true true "resize" (7 : Nat)).2
        ((_Browser_on _Browser_domTarget true true "resize" 7).1 []) = [] :=
  on_teardown_exact [] true true "resize" 7 (by simp)

/-- C10, confirmed.  When the global `document` (resp. `window`) is
undefined, `_Browser_doc` (resp. `_Browser_window`) is the fake node,
whose `addEventListener`/`removeEventListener` do nothing: subscribing via
`_Browser_on` and tearing down are total no-ops on the listener list (in
particular nothing throws — every embedded operation is a total function),
and since the subscription registers no listener, dispatching any host
event on the fake node's (empty) listener list produces no handler call,
hence no message. -/
theorem fakeNode_on_no_messages [DecidableEq H] (ps p : Bool)
    (en ev : String) (h : H) (ls : List (Listener H)) :
    _Browser_doc (H := H) false = _Browser_fakeNode ∧
    _Browser_window (H := H) false = _Browser_fakeNode ∧
    (_Browser_on _Browser_fakeNode ps p en h).1 ls = ls ∧
    (_Browser_on _Browser_fakeNode ps p en h).2 ls = ls ∧
    dispatch ((_Browser_on (H := H) _Browser_fakeNode ps p en h).1 []) ev
        = [] :=
  ⟨rfl, rfl, rfl, rfl, rfl⟩

/-! ## Theorems: navigation, DOM queries, decoding, document mode -/

/-- C5, confirmed.  Executing `_Browser_load(url)` attempts
`window.location = url`; when the host throws on the assignment, the
exception is caught and a reload of the current page with caching enabled
is performed instead (`location.reload(false)`, i.e. `skipCache = false`);
on the non-throwing path only the assignment happens; and — like
`_Browser_reload` — the operation never invokes its completion callback on
either path. -/
theorem load_reload_spec (url : String) (assignThrows : Bool) :
    (_Browser_load_run url assignThrows).2 = false ∧
    (assignThrows = true →
      (_Browser_load_run url assignThrows).1
        = [.assignLocation url, .reload false]) ∧
    (assignThrows = false →
      (_Browser_load_run url assignThrows).1 = [.assignLocation url]) ∧
    ∀ skipCache, (_Browser_reload_run skipCache).2 = false := by
  cases assignThrows <;>
    simp [_Browser_load_run, _Browser_reload_run]

theorem load_reload_spec_witness :
    (_Browser_load_run "bad:url" true).1
        = [.assignLocation "bad:url", .reload false] ∧
    (_Browser_load_run "bad:url" false).1 = [.assignLocation "bad:url"] :=
  ⟨(load_reload_spec "bad:url" true).2.1 rfl,
   (load_reload_spec "bad:url" false).2.2.1 rfl⟩

/-- C6, confirmed.  `_Browser_withNode(id, doStuff)` defers its whole body
to the next animation-frame tick (`runsOnFrame = true`: nothing runs at
bind time, the lookup sees the document as it stands at that tick), and at
that tick resolves with `doStuff(node)` when `getElementById(id)` finds a
node, and fails with `NotFound` carrying exactly `id` when it does not. -/
theorem withNode_spec (id : String) (f : DomNode → α)
    (dom : String → Option DomNode) :
    (_Browser_withNode id f).runsOnFrame = true ∧
    (∀ node, dom id = some node →
      (_Browser_withNode id f).atFrame dom = .ok (f node)) ∧
    (dom id = none →
      (_Browser_withNode id f).atFrame dom
        = .error (.notFound id)) := by
  refine ⟨rfl, fun node h => ?_, fun h => ?_⟩ <;>
    simp [_Browser_withNode, h]

theorem withNode_spec_witness :
    (_Browser_withNode "missing-id" (fun node => node "scrollTop")).atFrame
        (fun _ => none) = .error (.notFound "missing-id") ∧
    (_Browser_withNode "box" (fun node => node "scrollTop")).atFrame
        (fun _ => some (fun _ => 7)) = .ok 7 :=
  ⟨(withNode_spec "missing-id" _ _).2.2 rfl,
   (withNode_spec "box" _ _).2.1 (fun _ => 7) rfl⟩

/-- C7, confirmed.  `_Browser_decodeEvent(decoder, event)` returns `Just`
the decoded value when the decoder succeeds and `Nothing` when it fails,
and it invokes `event.preventDefault()` if and only if the decoder
succeeds with its suppress-default flag set; in particular a failing
decode never invokes it. -/
theorem decodeEvent_spec (decoder : E → Option (μ × Bool)) (event : E) :
    (∀ msg b, decoder event = some (msg, b) →
      _Browser_decodeEvent decoder event = (some msg, b)) ∧
    (decoder event = none →
      _Browser_decodeEvent decoder event = (none, false)) ∧
    ((_Browser_decodeEvent decoder event).2 = true ↔
      ∃ msg, decoder event = some (msg, true)) := by
  rcases hd : decoder event with _ | ⟨msg, b⟩ <;>
    simp [_Browser_decodeEvent, hd]

theorem decodeEvent_spec_witness :
    _Browser_decodeEvent (fun _ : Nat => some ((5 : Nat), true)) 0
        = (some 5, true) ∧
    _Browser_decodeEvent (fun _ : Nat => (none : Option (Nat × Bool))) 0
        = (none, false) :=
  ⟨(decodeEvent_spec (fun _ => some (5, true)) 0).1 5 true rfl,
   (decodeEvent_spec (fun _ => none) 0).2.1 rfl⟩

/-- C8, confirmed.  On a node whose maximum scroll extent on the given
axis is `M` (`node[scrollMax] = M`), `_Browser_setNegativeScroll(scroll,
scrollMax, id, offset)` resolves to the same outcome — in particular
leaves the node's `scroll` property equal — as
`_Browser_setPositiveScroll(scroll, id, M - offset)` on the same
document. -/
theorem setNegativeScroll_eq_setPositiveScroll (scroll scrollMax id : String)
    (dom : String → Option DomNode) (node : DomNode) (M offset : Int)
    (hnode : dom id = some node) (hM : node scrollMax = M) :
    (_Browser_setNegativeScroll scroll scrollMax id offset).atFrame dom
      = (_Browser_setPositiveScroll scroll id (M - offset)).atFrame dom := by
  simp [_Browser_setNegativeScroll, _Browser_setPositiveScroll,
        _Browser_withNode, hnode, hM]

theorem setNegativeScroll_eq_setPositiveScroll_witness :
    (_Browser_setNegativeScroll "scrollTop" "scrollTopMax" "box" 10).atFrame
        (fun _ => some (fun _ => 100))
      = (_Browser_setPositiveScroll "scrollTop" "box" (100 - 10)).atFrame
        (fun _ => some (fun _ => 100)) :=
  setNegativeScroll_eq_setPositiveScroll "scrollTop" "scrollTopMax" "box"
    (fun _ => some (fun _ => 100)) (fun _ => 100) 100 10 rfl rfl

/-- C9, confirmed.  On every document-mode draw the body is diffed and
patched, and the host document's title is assigned exactly when the newly
rendered title differs from the title variable — which holds the most
recently written title, initialized from the host title at startup — and
is left unassigned when the two are equal. -/
theorem document_title_write_iff (view : M → DocView B) (patch : B → B → B)
    (st : DocState B) (model : M) (hostTitle : String) (hostBody : B) :
    (st.title ≠ (view model).title →
      (_Browser_document_draw view patch st model).titleWrites
          = st.titleWrites ++ [(view model).title] ∧
      (_Browser_document_draw view patch st model).title
          = (view model).title) ∧
    (st.title = (view model).title →
      (_Browser_document_draw view patch st model).titleWrites
          = st.titleWrites ∧
      (_Browser_document_draw view patch st model).title = st.title) ∧
    (_Browser_document_draw view patch st model).bodyPatches
        = st.bodyPatches + 1 ∧
    (_Browser_document_draw view patch st model).bodyNode
        = patch st.bodyNode (view model).body ∧
    (_Browser_document_init hostTitle hostBody).title = hostTitle := by
  by_cases h : st.title = (view model).title <;>
    simp [_Browser_document_draw, _Browser_document_init, h]

theorem document_title_write_iff_witness :
    (_Browser_document_draw (fun m : Nat => DocView.mk "u" m)
        (fun _ b => b) (_Browser_document_init "t" (0 : Nat)) 5).titleWrites
      = ["u"] ∧
    (_Browser_document_draw (fun m : Nat => DocView.mk "t" m)
        (fun _ b => b) (_Browser_document_init "t" (0 : Nat)) 5).titleWrites
      = [] :=
  ⟨((document_title_write_iff (fun m : Nat => DocView.mk "u" m)
      (fun _ b => b) (_Browser_document_init "t" 0) 5 "t" 0).1
      (by decide)).1,
   ((document_title_write_iff (fun m : Nat => DocView.mk "t" m)
      (fun _ b => b) (_Browser_document_init "t" 0) 5 "t" 0).2.1
      rfl).1⟩
